import Mathlib

/-!
Shallow embedding of the Product Store Service (src/service/routes.py) and of
the storage/model layer it delegates to, with the spec claims settled as
theorems.

The request handlers of routes.py are embedded as pure functions from an
explicit database state (a list of rows) and the relevant pieces of the HTTP
request (headers, query parameters, parsed body) to an HTTP response, paired
with the resulting database state for the mutating handlers.  The model layer
(service/models.py: the Product class with serialize/deserialize and the
storage operations, the Category enumeration) and the error handlers
(service/common/error_handlers.py) are not present under src/; the definitions
for them below are modelled from the spec and are marked as such in their doc
comments.
-/

/-- Modelled from the spec: the `Category` enumeration of service/models.py is
not under src/.  Spec section 3 describes it as a closed enumeration with
members such as UNKNOWN, CLOTHS, FOOD, HOUSEWARES, AUTOMOTIVE, TOOLS. -/
inductive Category where
  | UNKNOWN
  | CLOTHS
  | FOOD
  | HOUSEWARES
  | AUTOMOTIVE
  | TOOLS
  deriving DecidableEq, Repr

/-- The name of an enumeration member, as used by serialization (spec section 6:
`category` serializes as the name of the enumeration member). -/
def Category.name : Category → String
  | .UNKNOWN => "UNKNOWN"
  | .CLOTHS => "CLOTHS"
  | .FOOD => "FOOD"
  | .HOUSEWARES => "HOUSEWARES"
  | .AUTOMOTIVE => "AUTOMOTIVE"
  | .TOOLS => "TOOLS"

/-- Name-to-member lookup on the enumeration.  This embeds the Python attribute
lookup `getattr(Category, s)`: it yields the member named `s` when one exists
and no result otherwise (in Python, an `AttributeError` is raised). -/
def Category.fromName (s : String) : Option Category :=
  if s = "UNKNOWN" then some .UNKNOWN
  else if s = "CLOTHS" then some .CLOTHS
  else if s = "FOOD" then some .FOOD
  else if s = "HOUSEWARES" then some .HOUSEWARES
  else if s = "AUTOMOTIVE" then some .AUTOMOTIVE
  else if s = "TOOLS" then some .TOOLS
  else none

/-- A JSON primitive value appearing as a field of a Product payload. -/
inductive JsonVal where
  | str (s : String)
  | num (q : Rat)
  | bool (b : Bool)
  | null
  deriving DecidableEq, Repr

/-- A JSON object sent or received as a Product representation: each field is
absent (`none`) or holds a JSON value.  Spec section 6 gives the shape
`id, name, description, price, available, category`. -/
structure ProductPayload where
  id : Option JsonVal := none
  name : Option JsonVal := none
  description : Option JsonVal := none
  price : Option JsonVal := none
  available : Option JsonVal := none
  category : Option JsonVal := none
  deriving DecidableEq, Repr

/-- The mutable fields of a Product, as produced by deserialization. -/
structure ProductVals where
  name : String
  description : String
  price : Rat
  available : Bool
  category : Category
  deriving DecidableEq, Repr

/-- A stored Product row.  Spec section 3: `id` integer, server-generated;
`name` text; `description` text; `price` monetary value; `available` boolean;
`category` enumeration member. -/
structure Product where
  id : Nat
  name : String
  description : String
  price : Rat
  available : Bool
  category : Category
  deriving DecidableEq, Repr

/-- Modelled from the spec: `Product.serialize` of service/models.py is not
under src/.  Spec section 6: the JSON shape is
`id: integer, name: string, description: string, price: number, available:
boolean, category: string`, with `category` serialized as the enumeration
name of the member. -/
def Product.serialize (p : Product) : ProductPayload :=
  { id := some (.num p.id)
    name := some (.str p.name)
    description := some (.str p.description)
    price := some (.num p.price)
    available := some (.bool p.available)
    category := some (.str p.category.name) }

/-- Modelled from the spec: `Product.deserialize` of service/models.py is not
under src/.  Spec section 4.3: deserialization fails with a bad-request error
if any required field (`name`, `price`, `available`, `category`) is absent, if
`category` does not match a known enumeration member, or if a field has the
wrong primitive type; `description` is optional text (spec section 3).  The
`id` field of the payload plays no role. -/
def Product.deserialize (data : ProductPayload) : Except String ProductVals :=
  match data.name with
  | some (.str n) =>
    match data.price with
    | some (.num pr) =>
      match data.available with
      | some (.bool av) =>
        match data.category with
        | some (.str c) =>
          match Category.fromName c with
          | some cv =>
            match data.description with
            | some (.str d) => .ok ⟨n, d, pr, av, cv⟩
            | none => .ok ⟨n, "", pr, av, cv⟩
            | some _ => .error "Invalid type for field description"
          | none => .error "Invalid category"
        | _ => .error "Invalid or missing field category"
      | _ => .error "Invalid or missing field available"
    | _ => .error "Invalid or missing field price"
  | _ => .error "Invalid or missing field name"

/-- Modelled from the spec: `Product.find` of service/models.py is not under
src/.  Spec section 6 lists a `find-by-id` storage operation; a missing row
yields no result. -/
def Product.find (db : List Product) (product_id : Nat) : Option Product :=
  db.find? (fun p => p.id == product_id)

/-- Modelled from the spec: `Product.find_by_name` of service/models.py is not
under src/.  Spec section 4.4: exact string match on `name`. -/
def Product.find_by_name (db : List Product) (n : String) : List Product :=
  db.filter (fun p => p.name == n)

/-- Modelled from the spec: `Product.find_by_category` of service/models.py is
not under src/.  Spec section 4.4: match on the category member. -/
def Product.find_by_category (db : List Product) (c : Category) : List Product :=
  db.filter (fun p => p.category == c)

/-- Modelled from the spec: `Product.find_by_availability` of service/models.py
is not under src/.  Spec section 4.4: match on the availability boolean. -/
def Product.find_by_availability (db : List Product) (b : Bool) : List Product :=
  db.filter (fun p => p.available == b)

/-- Modelled from the spec: `Product.all` of service/models.py is not under
src/.  Spec section 6 lists a `find-all` storage operation. -/
def Product.all (db : List Product) : List Product :=
  db

/-- The id the storage layer assigns to the next created row: one more than the
largest id in use, so it is fresh.  Spec section 3: `id` is server-generated
and unique. -/
def Product.nextId (db : List Product) : Nat :=
  db.foldr (fun p m => Nat.max p.id m) 0 + 1

/-- Modelled from the spec: `Product.create` of service/models.py is not under
src/.  Spec section 4.3: storage assigns a new unique `id` and stores the row.
Returns the new database state and the created row. -/
def Product.create (db : List Product) (v : ProductVals) : List Product × Product :=
  let p : Product := ⟨Product.nextId db, v.name, v.description, v.price, v.available, v.category⟩
  (db ++ [p], p)

/-- Modelled from the spec: `Product.update` of service/models.py is not under
src/.  Spec section 4.6: persists the overwritten row; the row with the given
id is replaced, all others are untouched. -/
def Product.update (db : List Product) (p : Product) : List Product :=
  db.map (fun q => if q.id == p.id then p else q)

/-- Modelled from the spec: `Product.delete` of service/models.py is not under
src/.  Spec section 4.7: removes the (single, found) row with the given id. -/
def Product.delete (db : List Product) (product_id : Nat) : List Product :=
  db.eraseP (fun p => p.id == product_id)

/-- The body of an HTTP response produced by a handler. -/
inductive Body where
  | jsonList (items : List ProductPayload)
  | jsonProd (item : ProductPayload)
  | text (s : String)
  | empty
  deriving DecidableEq, Repr

/-- An HTTP response: status code, body, and the optional Location header. -/
structure HttpResponse where
  status : Nat
  body : Body
  location : Option String := none
  deriving DecidableEq, Repr

/-- Outcome of running a request handler: either an HTTP response (produced by
the handler itself or by a registered error handler converting an abort), or a
Python exception escaping the handler unhandled, which the framework reports
as an internal server error (HTTP 500) rather than as one of the handled,
structured error responses. -/
inductive HandlerOutcome where
  | response (r : HttpResponse)
  | unhandledExn (exn : String)
  deriving DecidableEq, Repr

/-- The raw request body of a mutating request: either parsed JSON in the
Product shape, or text that `request.get_json()` cannot parse as JSON, which
makes Flask abort with a handled bad-request error (HTTP 400). -/
inductive ReqBody where
  | json (data : ProductPayload)
  | malformed
  deriving DecidableEq, Repr

/-- The query parameters of a GET /products request, as `request.args` exposes
them: each parameter is absent or carries its raw string value. -/
structure QueryArgs where
  name : Option String := none
  category : Option String := none
  available : Option String := none
  deriving DecidableEq, Repr

/-- Embeds the Python string method `upper()` used on the category query
parameter: every character is mapped to its upper-case form (the ASCII case
mapping, which covers the enumeration member names). -/
def pyUpper (s : String) : String :=
  ⟨s.data.map Char.toUpper⟩

/-- Modelled from the spec: the `not_found` error handler of
service/common/error_handlers.py is not under src/.  Spec section 7: a
not-found error is converted to a structured error body with status 404. -/
def not_found (msg : String) : HttpResponse :=
  { status := 404, body := .text msg }

/-- Embeds `check_content_type` (src/service/routes.py lines 50-66): with no
Content-Type header, or with a header different from the expected string, the
request is aborted with 415 (the abort is converted by the framework into the
structured response returned here); otherwise the check passes. -/
def check_content_type (header : Option String) (content_type : String) : Option HttpResponse :=
  match header with
  | none => some { status := 415, body := .text ("Content-Type must be " ++ content_type) }
  | some ct =>
    if ct = content_type then none
    else some { status := 415, body := .text ("Content-Type must be " ++ content_type) }

/-- Embeds `inject_not_found_method` (src/service/routes.py lines 69-75). -/
def inject_not_found_method (product_id : Nat) (method : String) : String :=
  "No product with " ++ Nat.repr product_id ++ " exists in the DB for " ++ method

/-- Embeds `list_products` (src/service/routes.py lines 106-134).  The branch
order mirrors the if/elif chain: `name`, then `category`, then `available`,
then all.  In the category branch, `getattr(Category, category.upper())`
raises an AttributeError when the upper-cased string names no member; that
exception is not caught anywhere in the handler, so it escapes as
`.unhandledExn`.  In the available branch, `bool(request.args.get("available"))`
is truthiness of the raw string: true exactly when the string is non-empty. -/
def list_products (db : List Product) (args : QueryArgs) : HandlerOutcome :=
  match args.name with
  | some query_name =>
    .response { status := 200, body := .jsonList ((Product.find_by_name db query_name).map Product.serialize) }
  | none =>
    match args.category with
    | some category =>
      match Category.fromName (pyUpper category) with
      | some category_val =>
        .response { status := 200, body := .jsonList ((Product.find_by_category db category_val).map Product.serialize) }
      | none => .unhandledExn "AttributeError"
    | none =>
      match args.available with
      | some raw =>
        .response { status := 200, body := .jsonList ((Product.find_by_availability db (!raw.isEmpty)).map Product.serialize) }
      | none =>
        .response { status := 200, body := .jsonList ((Product.all db).map Product.serialize) }

/-- Embeds `create_products` (src/service/routes.py lines 81-100): content-type
check first, then JSON parsing, then deserialization (a validation failure is
converted by the DataValidationError handler to a 400 response, spec section
7), then storage create; on success 201 with the serialized new row and a
Location header for its read URL. -/
def create_products (db : List Product) (ctHeader : Option String) (body : ReqBody) :
    HttpResponse × List Product :=
  match check_content_type ctHeader "application/json" with
  | some resp => (resp, db)
  | none =>
    match body with
    | .malformed => ({ status := 400, body := .text "Bad Request" }, db)
    | .json data =>
      match Product.deserialize data with
      | .error msg => ({ status := 400, body := .text msg }, db)
      | .ok v =>
        let res := Product.create db v
        ({ status := 201
           body := .jsonProd (Product.serialize res.2)
           location := some ("/products/" ++ Nat.repr res.2.id) }, res.1)

/-- Embeds `get_products` (src/service/routes.py lines 140-151): look up by id;
missing row gives the `not_found` response, otherwise 200 with the serialized
row.  The handler performs no mutation, so it returns only the response. -/
def get_products (db : List Product) (product_id : Nat) : HttpResponse :=
  match Product.find db product_id with
  | none => not_found ("No product with " ++ Nat.repr product_id ++ " exists in the DB")
  | some found => { status := 200, body := .jsonProd (Product.serialize found) }

/-- Embeds `update_products` (src/service/routes.py lines 157-185): content-type
check first, then the lookup by the path id (404 when absent), then JSON
parsing and deserialization into a transient Product value (400 on failure),
and only then the five mutable fields of the found row are overwritten and
persisted; the stored id is throughout the id of the found row. -/
def update_products (db : List Product) (ctHeader : Option String) (product_id : Nat)
    (body : ReqBody) : HttpResponse × List Product :=
  match check_content_type ctHeader "application/json" with
  | some resp => (resp, db)
  | none =>
    match Product.find db product_id with
    | none => (not_found (inject_not_found_method product_id "UPDATE"), db)
    | some old_product =>
      match body with
      | .malformed => ({ status := 400, body := .text "Bad Request" }, db)
      | .json data =>
        match Product.deserialize data with
        | .error msg => ({ status := 400, body := .text msg }, db)
        | .ok v =>
          let updated : Product :=
            ⟨old_product.id, v.name, v.description, v.price, v.available, v.category⟩
          ({ status := 200, body := .jsonProd (Product.serialize updated) },
            Product.update db updated)

/-- Embeds `delete_products` (src/service/routes.py lines 191-207): look up by
id; missing row gives the `not_found` response and leaves the state alone,
otherwise the row is removed and 204 with an empty body is returned. -/
def delete_products (db : List Product) (product_id : Nat) : HttpResponse × List Product :=
  match Product.find db product_id with
  | none => (not_found (inject_not_found_method product_id "Delete"), db)
  | some product => ({ status := 204, body := .empty }, Product.delete db product.id)

/-! ### Sample data used in witnesses and counterexamples -/

/-- A concrete stored row used by witnesses. -/
def sampleA : Product :=
  ⟨1, "Hat", "A red hat", 10, true, .CLOTHS⟩

/-- A second concrete stored row used by witnesses. -/
def sampleB : Product :=
  ⟨2, "Wrench", "Steel wrench", 7, false, .TOOLS⟩

/-- A concrete valid request payload.  Its `id` field (99) differs from every
path id it is used with, exercising the rule that the body id is ignored. -/
def samplePayload : ProductPayload :=
  { id := some (.num 99)
    name := some (.str "Cap")
    description := some (.str "Blue cap")
    price := some (.num 5)
    available := some (.bool false)
    category := some (.str "CLOTHS") }

/-- The field values that `samplePayload` deserializes to. -/
def sampleVals : ProductVals :=
  ⟨"Cap", "Blue cap", 5, false, .CLOTHS⟩

/-- A concrete payload that fails deserialization (missing price). -/
def badPayload : ProductPayload :=
  { name := some (.str "Ghost") }

/-- Whether a handler outcome is a handled HTTP response with the given status
(as opposed to an exception escaping the handler). -/
def HandlerOutcome.isResponseWithStatus (o : HandlerOutcome) (s : Nat) : Bool :=
  match o with
  | .response r => r.status == s
  | .unhandledExn _ => false

/-! ### Helper lemmas about the storage model -/

theorem Product.find_some_id {db : List Product} {product_id : Nat} {p : Product}
    (h : Product.find db product_id = some p) : p.id = product_id := by
  have := List.find?_some h
  simpa using this

theorem Product.find_mem {db : List Product} {product_id : Nat} {p : Product}
    (h : Product.find db product_id = some p) : p ∈ db :=
  List.mem_of_find?_eq_some h

theorem Product.id_le_maxId {db : List Product} {p : Product} (h : p ∈ db) :
    p.id ≤ db.foldr (fun q m => Nat.max q.id m) 0 := by
  induction db with
  | nil => cases h
  | cons q rest ih =>
    rcases List.mem_cons.mp h with h | h
    · subst h; exact Nat.le_max_left _ _
    · exact Nat.le_trans (ih h) (Nat.le_max_right _ _)

theorem Product.nextId_gt {db : List Product} {p : Product} (h : p ∈ db) :
    p.id < Product.nextId db :=
  Nat.lt_succ_of_le (Product.id_le_maxId h)

theorem Product.nextId_fresh (db : List Product) :
    ∀ p ∈ db, p.id ≠ Product.nextId db :=
  fun _ hp => Nat.ne_of_lt (Product.nextId_gt hp)

theorem Product.find_append_fresh {db : List Product} {p : Product}
    (h : ∀ q ∈ db, q.id ≠ p.id) : Product.find (db ++ [p]) p.id = some p := by
  unfold Product.find
  rw [List.find?_append]
  have h1 : db.find? (fun q => q.id == p.id) = none := by
    rw [List.find?_eq_none]
    intro x hx
    simpa using h x hx
  simp [h1]

theorem Product.find_update_hit {db : List Product} {product_id : Nat} {old p : Product}
    (hf : Product.find db product_id = some old) (hid : p.id = product_id) :
    Product.find (Product.update db p) product_id = some p := by
  induction db with
  | nil => simp [Product.find] at hf
  | cons q rest ih =>
    by_cases h : q.id = product_id
    · simp [Product.find, Product.update, h, hid]
    · have hf2 : Product.find rest product_id = some old := by
        unfold Product.find at hf ⊢
        rwa [List.find?_cons_of_neg _ (by simpa using h)] at hf
      have ihr := ih hf2
      unfold Product.find Product.update at ihr ⊢
      rw [List.map_cons]
      rw [if_neg (by rw [hid]; simpa using h)]
      rw [List.find?_cons_of_neg _ (by simpa using h)]
      exact ihr

theorem Product.find_delete_self {db : List Product} {product_id : Nat} {p : Product}
    (hnd : (db.map Product.id).Nodup) (hf : Product.find db product_id = some p) :
    Product.find (Product.delete db product_id) product_id = none := by
  induction db with
  | nil => simp [Product.find] at hf
  | cons q rest ih =>
    rw [List.map_cons, List.nodup_cons] at hnd
    by_cases h : q.id = product_id
    · unfold Product.find Product.delete
      rw [List.eraseP_cons_of_pos (by simpa using h)]
      rw [List.find?_eq_none]
      intro x hx
      simp only [beq_iff_eq]
      intro hxid
      have hmem : x.id ∈ List.map Product.id rest := List.mem_map_of_mem Product.id hx
      rw [hxid, ← h] at hmem
      exact hnd.1 hmem
    · have hf2 : Product.find rest product_id = some p := by
        unfold Product.find at hf ⊢
        rwa [List.find?_cons_of_neg _ (by simpa using h)] at hf
      have ihr := ih hnd.2 hf2
      unfold Product.find Product.delete at ihr ⊢
      rw [List.eraseP_cons_of_neg (by simpa using h)]
      rw [List.find?_cons_of_neg _ (by simpa using h)]
      exact ihr

/-! ### Shared facts used across claims -/

theorem check_content_type_json_ok :
    check_content_type (some "application/json") "application/json" = none := rfl

/-! ### Claims -/

/-- Claim C1, counterexample: at the concrete request GET /products with
query parameter category=bogus (on an empty database), the list operation
does not produce a handled 400 validation response; instead an AttributeError
escapes the request handler unhandled, contrary to the claim. -/
theorem C1_counterexample :
    (list_products [] { name := none, category := some "bogus", available := none }).isResponseWithStatus 400 = false ∧
    list_products [] { name := none, category := some "bogus", available := none } =
      .unhandledExn "AttributeError" :=
  ⟨by decide, by decide⟩

/-- Claim C1, amended: for every GET /products request whose category query
parameter, after upper-casing, names no member of the Category enumeration
(and with no name parameter), the list operation raises an AttributeError
that propagates out of the request handler as an unhandled fault (surfacing
as a framework-level internal server error), rather than a handled 400
validation response. -/
theorem C1_unknown_category_unhandled (db : List Product) (args : QueryArgs) (c : String)
    (hn : args.name = none) (hc : args.category = some c)
    (hcat : Category.fromName (pyUpper c) = none) :
    list_products db args = .unhandledExn "AttributeError" := by
  simp [list_products, hn, hc, hcat]

/-- Claim C1, witness: the amended theorem applied at a concrete request. -/
theorem C1_witness :
    list_products [sampleA] { name := none, category := some "Gadgetz", available := none } =
      .unhandledExn "AttributeError" :=
  C1_unknown_category_unhandled [sampleA] _ "Gadgetz" rfl rfl (by decide)

/-- Claim C2: for every GET /products request carrying only an available query
parameter, the raw query-string value is coerced by truthiness of a
non-empty string: every non-empty value (including the literal string False)
selects exactly the rows with available = true, and the empty string selects
exactly the rows with available = false. -/
theorem C2_available_truthiness (db : List Product) (s : String) :
    (s ≠ "" →
      list_products db { name := none, category := none, available := some s } =
        .response { status := 200
                    body := .jsonList ((db.filter (fun p => p.available == true)).map Product.serialize)
                    location := none }) ∧
    (s = "" →
      list_products db { name := none, category := none, available := some s } =
        .response { status := 200
                    body := .jsonList ((db.filter (fun p => p.available == false)).map Product.serialize)
                    location := none }) := by
  constructor
  · intro h
    have he : s.isEmpty = false := by
      rw [← Bool.not_eq_true]
      simpa [String.isEmpty_iff] using h
    simp [list_products, Product.find_by_availability, he]
  · intro h
    subst h
    have he : ("" : String).isEmpty = true := rfl
    simp [list_products, Product.find_by_availability, he]

/-- Claim C2, witness: the theorem applied with the raw value False and a
concrete two-row database; the available = true subset is selected. -/
theorem C2_witness :
    (("False" : String) ≠ "") ∧
    list_products [sampleA, sampleB] { name := none, category := none, available := some "False" } =
      .response { status := 200
                  body := .jsonList (([sampleA, sampleB].filter (fun p => p.available == true)).map Product.serialize)
                  location := none } :=
  ⟨by decide, (C2_available_truthiness [sampleA, sampleB] "False").1 (by decide)⟩

/-- Claim C3, counterexample: the claim also asserts that the response of the
list operation is always a sequence with success status, but at the concrete
request GET /products with category=toyz the outcome is not a 200 sequence:
an AttributeError escapes the handler. -/
theorem C3_counterexample :
    (list_products [sampleA] { name := none, category := some "toyz", available := none }).isResponseWithStatus 200 = false ∧
    list_products [sampleA] { name := none, category := some "toyz", available := none } =
      .unhandledExn "AttributeError" :=
  ⟨by decide, by decide⟩

/-- Claim C3, amended: exactly one filter is applied, chosen in the fixed
order name, category, available; with a name parameter the name filter is
used regardless of the other parameters; otherwise a category parameter
naming a valid member selects the category filter; otherwise an available
parameter selects the availability filter; otherwise all products are
returned.  In each of these cases the response is a sequence with status 200
(in particular an empty result is a success with an empty sequence); the
exception is an invalid category, where an unhandled AttributeError escapes
instead (see C1). -/
theorem C3_filter_precedence (db : List Product) (args : QueryArgs) :
    (∀ n, args.name = some n →
      list_products db args =
        .response { status := 200
                    body := .jsonList ((Product.find_by_name db n).map Product.serialize)
                    location := none }) ∧
    (∀ c cv, args.name = none → args.category = some c →
      Category.fromName (pyUpper c) = some cv →
      list_products db args =
        .response { status := 200
                    body := .jsonList ((Product.find_by_category db cv).map Product.serialize)
                    location := none }) ∧
    (∀ s, args.name = none → args.category = none → args.available = some s →
      list_products db args =
        .response { status := 200
                    body := .jsonList ((Product.find_by_availability db (!s.isEmpty)).map Product.serialize)
                    location := none }) ∧
    (args.name = none → args.category = none → args.available = none →
      list_products db args =
        .response { status := 200
                    body := .jsonList ((Product.all db).map Product.serialize)
                    location := none }) := by
  refine ⟨?_, ?_, ?_, ?_⟩
  · intro n hn
    simp [list_products, hn]
  · intro c cv hn hc hcat
    simp [list_products, hn, hc, hcat]
  · intro s hn hc ha
    simp [list_products, hn, hc, ha]
  · intro hn hc ha
    simp [list_products, hn, hc, ha]

/-- Claim C3, witness: a request carrying a name parameter together with an
invalid category parameter and an available parameter still uses the name
filter, with a 200 sequence response. -/
theorem C3_witness :
    list_products [sampleA, sampleB] { name := some "Hat", category := some "toyz", available := some "" } =
      .response { status := 200
                  body := .jsonList ((Product.find_by_name [sampleA, sampleB] "Hat").map Product.serialize)
                  location := none } :=
  (C3_filter_precedence [sampleA, sampleB] _).1 "Hat" rfl

/-- Claim C4: for every id with no stored row, read returns 404, update with
valid content type returns 404 leaving the state unchanged, and delete
returns 404 leaving the state unchanged; never 200, 204 or 500. -/
theorem C4_not_found_consistency (db : List Product) (product_id : Nat) (body : ReqBody)
    (h : Product.find db product_id = none) :
    (get_products db product_id).status = 404 ∧
    (update_products db (some "application/json") product_id body).1.status = 404 ∧
    (update_products db (some "application/json") product_id body).2 = db ∧
    (delete_products db product_id).1.status = 404 ∧
    (delete_products db product_id).2 = db := by
  refine ⟨?_, ?_, ?_, ?_, ?_⟩ <;>
    simp [get_products, update_products, delete_products, check_content_type_json_ok,
      not_found, h]

/-- Claim C4, witness: the theorem applied at id 7 on an empty database with a
malformed body. -/
theorem C4_witness :
    (get_products [] 7).status = 404 ∧
    (update_products [] (some "application/json") 7 .malformed).1.status = 404 ∧
    (update_products [] (some "application/json") 7 .malformed).2 = [] ∧
    (delete_products [] 7).1.status = 404 ∧
    (delete_products [] 7).2 = [] :=
  C4_not_found_consistency [] 7 .malformed rfl

/-- Claim C5: for every POST /products or PUT /products/id request whose
Content-Type header is absent or differs from the exact string
application/json, the operation returns 415 and the state is unchanged,
regardless of the request body (the body is never parsed). -/
theorem C5_content_type_enforcement (db : List Product) (ct : Option String)
    (product_id : Nat) (body : ReqBody)
    (h : ∀ v, ct = some v → v ≠ "application/json") :
    (create_products db ct body).1.status = 415 ∧
    (create_products db ct body).2 = db ∧
    (update_products db ct product_id body).1.status = 415 ∧
    (update_products db ct product_id body).2 = db := by
  cases ct with
  | none => simp [create_products, update_products, check_content_type]
  | some v =>
    have hv : v ≠ "application/json" := h v rfl
    simp [create_products, update_products, check_content_type, hv]

/-- Claim C5, witness: the theorem applied with the header value
application/json; charset=utf-8 and a well-formed body. -/
theorem C5_witness :
    (create_products [] (some "application/json; charset=utf-8") (.json samplePayload)).1.status = 415 ∧
    (create_products [] (some "application/json; charset=utf-8") (.json samplePayload)).2 = [] ∧
    (update_products [] (some "application/json; charset=utf-8") 3 (.json samplePayload)).1.status = 415 ∧
    (update_products [] (some "application/json; charset=utf-8") 3 (.json samplePayload)).2 = [] :=
  C5_content_type_enforcement [] (some "application/json; charset=utf-8") 3 (.json samplePayload)
    (fun v hv => by cases hv; decide)

/-- Claim C6: for every successful PUT on an existing product, the stored row
gets exactly the five deserialized mutable fields (a full replace) while its
id stays the id of the found row, which equals the path id; the id carried in
the request body plays no role in deserialization, so it is ignored for the
lookup and for the stored id. -/
theorem C6_update_full_replace (db : List Product) (product_id : Nat)
    (data : ProductPayload) (old : Product) (v : ProductVals)
    (hf : Product.find db product_id = some old)
    (hd : Product.deserialize data = .ok v) :
    update_products db (some "application/json") product_id (.json data) =
      ({ status := 200
         body := .jsonProd (Product.serialize ⟨old.id, v.name, v.description, v.price, v.available, v.category⟩)
         location := none },
        Product.update db ⟨old.id, v.name, v.description, v.price, v.available, v.category⟩) ∧
    old.id = product_id ∧
    Product.find (Product.update db ⟨old.id, v.name, v.description, v.price, v.available, v.category⟩) product_id =
      some ⟨old.id, v.name, v.description, v.price, v.available, v.category⟩ ∧
    (∀ j, Product.deserialize { data with id := j } = Product.deserialize data) := by
  have hid := Product.find_some_id hf
  refine ⟨?_, hid, ?_, ?_⟩
  · simp [update_products, check_content_type_json_ok, hf, hd]
  · exact Product.find_update_hit hf hid
  · intro j
    rfl

/-- Claim C6, witness: the theorem applied to a concrete database and a
payload whose body id (99) differs from the path id (1): the row keeps id 1
and every mutable field is replaced. -/
theorem C6_witness :
    update_products [sampleA, sampleB] (some "application/json") 1 (.json samplePayload) =
      ({ status := 200
         body := .jsonProd (Product.serialize ⟨1, "Cap", "Blue cap", 5, false, .CLOTHS⟩)
         location := none },
        Product.update [sampleA, sampleB] ⟨1, "Cap", "Blue cap", 5, false, .CLOTHS⟩) :=
  (C6_update_full_replace [sampleA, sampleB] 1 samplePayload sampleA sampleVals rfl rfl).1

/-- Claim C7: for every valid Product payload, POST /products returns 201
with a Location header for the newly assigned id and the serialized created
Product, and a subsequent GET of that id returns 200 with a Product carrying
exactly the deserialized fields of the payload together with the
server-assigned id (create-then-read round-trip). -/
theorem C7_create_read_round_trip (db : List Product) (data : ProductPayload) (v : ProductVals)
    (hd : Product.deserialize data = .ok v) :
    (create_products db (some "application/json") (.json data)).1.status = 201 ∧
    (create_products db (some "application/json") (.json data)).1.location =
      some ("/products/" ++ Nat.repr (Product.nextId db)) ∧
    (create_products db (some "application/json") (.json data)).1.body =
      .jsonProd (Product.serialize ⟨Product.nextId db, v.name, v.description, v.price, v.available, v.category⟩) ∧
    get_products (create_products db (some "application/json") (.json data)).2 (Product.nextId db) =
      { status := 200
        body := .jsonProd (Product.serialize ⟨Product.nextId db, v.name, v.description, v.price, v.available, v.category⟩)
        location := none } := by
  have hfresh :
      ∀ q ∈ db, q.id ≠ (⟨Product.nextId db, v.name, v.description, v.price, v.available, v.category⟩ : Product).id :=
    fun q hq => Product.nextId_fresh db q hq
  have hfind := Product.find_append_fresh hfresh
  refine ⟨?_, ?_, ?_, ?_⟩ <;>
    simp [create_products, check_content_type_json_ok, Product.create, hd, get_products, hfind]

/-- Claim C7, witness: the round-trip read-back of the theorem at a concrete
database and payload. -/
theorem C7_witness :
    get_products (create_products [sampleA] (some "application/json") (.json samplePayload)).2 (Product.nextId [sampleA]) =
      { status := 200
        body := .jsonProd (Product.serialize ⟨Product.nextId [sampleA], "Cap", "Blue cap", 5, false, .CLOTHS⟩)
        location := none } :=
  (C7_create_read_round_trip [sampleA] samplePayload sampleVals rfl).2.2.2

/-- Claim C8: deleting an existing id returns 204 with an empty body, the
total row count decreases by exactly one, and a second DELETE of the same id
returns 404 and changes nothing (ids are unique in the store, per the spec
invariant). -/
theorem C8_delete_observability (db : List Product) (product_id : Nat) (p : Product)
    (hnd : (db.map Product.id).Nodup) (hf : Product.find db product_id = some p) :
    (delete_products db product_id).1 = { status := 204, body := .empty, location := none } ∧
    (delete_products db product_id).2.length = db.length - 1 ∧
    (delete_products (delete_products db product_id).2 product_id).1.status = 404 ∧
    (delete_products (delete_products db product_id).2 product_id).2 =
      (delete_products db product_id).2 := by
  have hid := Product.find_some_id hf
  have h1 : delete_products db product_id =
      ({ status := 204, body := .empty, location := none }, Product.delete db product_id) := by
    simp [delete_products, hf, hid]
  have h2 := Product.find_delete_self hnd hf
  refine ⟨?_, ?_, ?_, ?_⟩
  · rw [h1]
  · rw [h1]
    exact List.length_eraseP_of_mem (Product.find_mem hf) (by simpa using hid)
  · rw [h1]
    simp [delete_products, h2, not_found]
  · rw [h1]
    simp [delete_products, h2, not_found]

/-- Claim C8, witness: the theorem applied to a concrete two-row database. -/
theorem C8_witness :
    (delete_products [sampleA, sampleB] 1).1 = { status := 204, body := .empty, location := none } ∧
    (delete_products [sampleA, sampleB] 1).2.length = [sampleA, sampleB].length - 1 ∧
    (delete_products (delete_products [sampleA, sampleB] 1).2 1).1.status = 404 ∧
    (delete_products (delete_products [sampleA, sampleB] 1).2 1).2 =
      (delete_products [sampleA, sampleB] 1).2 :=
  C8_delete_observability [sampleA, sampleB] 1 sampleA (by decide) rfl

/-- Claim C9: the PUT error checks run in the fixed order content type,
existence, body validation: a wrong or missing content type yields 415 for
every database and body (in particular for a nonexistent id), a valid content
type with a nonexistent id yields 404 for every body (in particular an
invalid one, since parsing happens only after the lookup), and only with a
valid content type and an existing id does an invalid body yield 400. -/
theorem C9_update_check_order (db : List Product) (product_id : Nat) :
    (∀ ct body, (∀ v, ct = some v → v ≠ "application/json") →
      (update_products db ct product_id body).1.status = 415) ∧
    (∀ body, Product.find db product_id = none →
      (update_products db (some "application/json") product_id body).1.status = 404) ∧
    (∀ data old msg, Product.find db product_id = some old →
      Product.deserialize data = .error msg →
      (update_products db (some "application/json") product_id (.json data)).1.status = 400) := by
  refine ⟨?_, ?_, ?_⟩
  · intro ct body h
    cases ct with
    | none => simp [update_products, check_content_type]
    | some v => simp [update_products, check_content_type, h v rfl]
  · intro body h
    simp [update_products, check_content_type_json_ok, h, not_found]
  · intro data old msg hf hd
    simp [update_products, check_content_type_json_ok, hf, hd]

/-- Claim C9, witness: 415 without a content type on a nonexistent id and a
malformed body; 404 with a valid content type, nonexistent id and malformed
body; 400 with a valid content type, existing id and invalid payload. -/
theorem C9_witness :
    (update_products [] none 5 .malformed).1.status = 415 ∧
    (update_products [] (some "application/json") 5 .malformed).1.status = 404 ∧
    (update_products [sampleA] (some "application/json") 1 (.json badPayload)).1.status = 400 :=
  ⟨(C9_update_check_order [] 5).1 none .malformed (fun v hv => by cases hv),
   (C9_update_check_order [] 5).2.1 .malformed rfl,
   (C9_update_check_order [sampleA] 1).2.2 badPayload sampleA "Invalid or missing field price" rfl rfl⟩

/-- Claim C10: a PUT on an existing product whose body is malformed JSON or
fails deserialization returns 400 and leaves the stored state completely
unchanged: the body is deserialized into a transient value before any field
of the stored row is assigned, so validation failure aborts without
mutation. -/
theorem C10_update_atomic_on_invalid (db : List Product) (product_id : Nat) (old : Product)
    (body : ReqBody) (hf : Product.find db product_id = some old)
    (hbad : body = .malformed ∨
      ∃ data msg, body = .json data ∧ Product.deserialize data = .error msg) :
    (update_products db (some "application/json") product_id body).1.status = 400 ∧
    (update_products db (some "application/json") product_id body).2 = db := by
  rcases hbad with h | ⟨data, msg, hb, hd⟩
  · subst h
    simp [update_products, check_content_type_json_ok, hf]
  · subst hb
    simp [update_products, check_content_type_json_ok, hf, hd]

/-- Claim C10, witness: the theorem applied to a concrete one-row database
and an invalid payload. -/
theorem C10_witness :
    (update_products [sampleA] (some "application/json") 1 (.json badPayload)).1.status = 400 ∧
    (update_products [sampleA] (some "application/json") 1 (.json badPayload)).2 = [sampleA] :=
  C10_update_atomic_on_invalid [sampleA] 1 sampleA (.json badPayload) rfl
    (Or.inr ⟨badPayload, "Invalid or missing field price", rfl, rfl⟩)
